import Mathlib

/-!
Verification development for the HSClassification repository.

We shallowly embed the TypeScript sources:
  * `src/services/openai.ts`  — `classifyProduct` response extraction and
    `generateWTOLink`;
  * `src/services/database.ts` — `DatabaseService` (retry wrapper, list/query
    search dispatch, statistics aggregation, convenience queries);
  * `src/App.tsx` — `handleClassification` state transition.

External collaborators (the OpenAI completion call, `JSON.parse`, the Supabase
query engine, timers) are modelled as parameters: an operation is a function
from its call index to an outcome, and `JSON.parse` is an oracle
`String → Option ParsedClassification`.  JavaScript thrown errors are modelled
by their message strings.
-/

namespace HSClass

/-- Outcome of one invocation of an asynchronous operation: the promise either
resolves with a value or rejects with a JavaScript `Error` whose message is the
given string. -/
inductive Outcome (α : Type) where
  | ok (val : α)
  | err (msg : String)
deriving Repr, DecidableEq

/-- Scan for an occurrence: does `pat` occur as a contiguous run inside
`cs`?  Models JavaScript `String.prototype.includes`. -/
def listContains (pat : List Char) : List Char → Bool
  | [] => pat.isEmpty
  | c :: cs => pat.isPrefixOf (c :: cs) || listContains pat cs

/-- JavaScript `s.includes(pat)` on strings. -/
def strIncludes (s pat : String) : Bool :=
  listContains pat.toList s.toList

/-- The transient-network test of `DatabaseService.retryOperation`
(`database.ts` line 70): `error.message.includes('Failed to fetch')`. -/
def isTransient (msg : String) : Bool :=
  strIncludes msg "Failed to fetch"

/-- Shallow embedding of `DatabaseService.retryOperation` (`database.ts`
lines 62–76).  `op k` is the outcome of the `k`-th invocation of the wrapped
closure; `retries` and `delay` are the recursion parameters (defaults 2 and
1000 at the call sites).  Returns the final result together with the list of
sleep delays performed, in order.  The source retries only when `retries > 0`
and the error message includes `'Failed to fetch'`; the retried call uses
`retries - 1` and `delay * 1.5`. -/
def retryOperation {α : Type} (op : Nat → Outcome α) (k retries : Nat)
    (delay : ℚ) : Except String α × List ℚ :=
  match op k with
  | .ok v => (Except.ok v, [])
  | .err msg =>
    if 0 < retries ∧ isTransient msg = true then
      let rest := retryOperation op (k + 1) (retries - 1) (delay * (3 / 2))
      (rest.1, delay :: rest.2)
    else (Except.error msg, [])
termination_by retries
decreasing_by omega

/-- The five named reference links returned by `generateWTOLink`
(`openai.ts`, migration file lines 289–301). -/
structure WTOLinks where
  wto : String
  wcoomic : String
  chapter : String
  detailed : String
  search : String
deriving Repr, DecidableEq

/-- JavaScript `s.substring(a, b)` for `a ≤ b`: the characters at indices
`[a, b)`, clamped to the string length. -/
def jsSubstring (s : String) (a b : Nat) : String :=
  ⟨(s.toList.drop a).take (b - a)⟩

/-- Shallow embedding of `generateWTOLink(hsCode)`: `baseCode` is
`hsCode.substring(0, 6)` (the source comment says "Use 6-digit international
code") and `chapter` is `hsCode.substring(0, 2)`; the five URLs are built by
string interpolation exactly as in the source. -/
def generateWTOLink (hsCode : String) : WTOLinks :=
  let baseCode := jsSubstring hsCode 0 6
  let chapter := jsSubstring hsCode 0 2
  { wto := "https://www.wto.org/english/res_e/booksp_e/tariff_profiles_e.htm"
    wcoomic := "https://www.wcoomd.org/en/topics/nomenclature/instrument-and-tools/hs-nomenclature-2022-edition/hs-nomenclature-2022-edition.aspx"
    chapter := "https://www.foreign-trade.com/reference/hscode.cfm?code=" ++ chapter
    detailed := "https://hts.usitc.gov/current"
    search := "https://www.tariffnumber.com/2022/" ++ baseCode }

/-- The suffix of the character list starting at the first occurrence of
`'{'`, or `[]` when there is none.  First half of the regex scan
`response.match(/\x7b[\s\S]*\x7d/)` in `classifyProduct` (line 201). -/
def dropUntilBrace : List Char → List Char
  | [] => []
  | c :: cs => if c == '{' then c :: cs else dropUntilBrace cs

/-- The prefix of the character list ending at its last occurrence of `'}'`
(inclusive), or `none` when there is no `'}'`.  Second half of the greedy
regex scan: the match extends to the last closing brace. -/
def takeToLastClose (cs : List Char) : Option (List Char) :=
  let tail := (cs.reverse.dropWhile (fun c => !(c == '}'))).reverse
  if tail.isEmpty then none else some tail

/-- Embedding of `response.match(/\x7b[\s\S]*\x7d/)` from `classifyProduct`
(line 201): the matched substring runs from the first `'{'` to the last `'}'`
of the text, and the match fails when no `'}'` follows the first `'{'`. -/
def jsonMatch (s : String) : Option String :=
  match dropUntilBrace s.toList with
  | [] => none
  | c :: rest =>
    match takeToLastClose rest with
    | none => none
    | some body => some ⟨c :: body⟩

/-- Decides whether the text contains a brace-delimited substring, i.e. a
`'{'` with some `'}'` strictly after it — exactly the condition under which
the regex `/\x7b[\s\S]*\x7d/` has a match. -/
def hasJsonBraces : List Char → Bool
  | [] => false
  | c :: cs => (c == '{' && cs.contains '}') || hasJsonBraces cs

/-- The value produced by `JSON.parse` on the matched substring, as used by
`classifyProduct`: the TypeScript cast `JSON.parse(...) as HSCodeClassification`
performs no runtime checking, so every field may be absent (`none`).
JavaScript distinguishes an absent field and an empty string only through
falsiness, which `falsyStr` models. -/
structure ParsedClassification where
  hsCode : Option String
  chapter : Option String
  description : Option String
  confidence : Option Int
  isDualUse : Option Bool
  reasoning : Option String
deriving Repr, DecidableEq

/-- JavaScript falsiness of an optional string field: `undefined` and `""`
are falsy, every other string is truthy. -/
def falsyStr : Option String → Bool
  | none => true
  | some s => s == ""

/-- The distinct failure points inside `classifyProduct` (lines 195–213):
missing completion content, no regex match (source message `'Invalid JSON
response from OpenAI'`), a `JSON.parse` exception, and the post-parse
validation failure (source message `'Incomplete classification data from
OpenAI'`). -/
inductive ClassifyError where
  | noResponse
  | malformedResponse
  | incompleteClassification
  | parseFailed
deriving Repr, DecidableEq

/-- Embedding of the extraction-and-validation segment of `classifyProduct`
(lines 200–213), parameterized by a `JSON.parse` oracle: scan for the
brace-delimited substring, parse it, then fail unless `hsCode`, `chapter` and
`description` are all truthy; on success the parsed object is returned
unchanged (no field, in particular `confidence`, is clamped, rescaled or
otherwise validated). -/
def extractClassification (parse : String → Option ParsedClassification)
    (response : String) : Except ClassifyError ParsedClassification :=
  match jsonMatch response with
  | none => Except.error ClassifyError.malformedResponse
  | some sub =>
    match parse sub with
    | none => Except.error ClassifyError.parseFailed
    | some c =>
      if falsyStr c.hsCode || falsyStr c.chapter || falsyStr c.description then
        Except.error ClassifyError.incompleteClassification
      else Except.ok c

/-- Embedding of `classifyProduct` from the completion content onwards
(lines 195–213): the guard `if (!response)` treats absent and empty content
alike (JavaScript falsiness), then extraction runs on the content. -/
def classifyProductOutcome (parse : String → Option ParsedClassification)
    (content : Option String) : Except ClassifyError ParsedClassification :=
  match content with
  | none => Except.error ClassifyError.noResponse
  | some response =>
    if response == "" then Except.error ClassifyError.noResponse
    else extractClassification parse response

/-- The `ClassificationRecord` row shape of `database.ts` (lines 22–41).
Timestamps are the ISO strings the store returns. -/
structure ClassificationRecord where
  id : String
  product_name : String
  customer_name : Option String
  hs_code : String
  chapter : String
  description : String
  confidence : Int
  is_dual_use : Bool
  reasoning : Option String
  wto_links : Option WTOLinks
  created_at : String
  updated_at : String
deriving Repr, DecidableEq

/-- Loose HS-code shape test of `getClassifications` (line 113): the regex
`^\d\x7b4\x7d(\.\d\x7b2\x7d(\.\d\x7b2\x7d)?)?$` — four digits, optionally
followed by a dot and two digits, optionally followed by another dot and two
digits. -/
def isHSCodeShape (s : String) : Bool :=
  match s.toList with
  | [a, b, c, d] =>
      a.isDigit && b.isDigit && c.isDigit && d.isDigit
  | [a, b, c, d, p, e, f] =>
      a.isDigit && b.isDigit && c.isDigit && d.isDigit &&
      p == '.' && e.isDigit && f.isDigit
  | [a, b, c, d, p, e, f, q, g, h] =>
      a.isDigit && b.isDigit && c.isDigit && d.isDigit &&
      p == '.' && e.isDigit && f.isDigit &&
      q == '.' && g.isDigit && h.isDigit
  | _ => false

/-- JavaScript `String.prototype.trim`: strip leading and trailing
whitespace. -/
def jsTrim (s : String) : String :=
  ⟨((s.toList.dropWhile Char.isWhitespace).reverse.dropWhile
      Char.isWhitespace).reverse⟩

/-- The filter that `getClassifications` attaches to the query for a given
`searchTerm` option (lines 108–120): none, an `ilike` on `hs_code` alone, or
the three-way `or(...)` across product name, customer name and HS code. -/
inductive SearchFilter where
  | noFilter
  | hsCodeOnly (term : String)
  | orSearch (term : String)
deriving Repr, DecidableEq

/-- Search-term dispatch of `getClassifications` (lines 109–120): a falsy
(absent or empty) term applies no filter; otherwise the term is trimmed and,
if it matches the loose HS-code shape, only the `hs_code` `ilike` filter is
applied, else the combined OR filter is. -/
def searchDispatch : Option String → SearchFilter
  | none => SearchFilter.noFilter
  | some t =>
    if t == "" then SearchFilter.noFilter
    else
      let term := jsTrim t
      if isHSCodeShape term then SearchFilter.hsCodeOnly term
      else SearchFilter.orSearch term

/-- Postgres `field ILIKE '%term%'`: case-insensitive substring containment;
ASCII lowering models the case fold. -/
def ilike (field term : String) : Bool :=
  strIncludes field.toLower term.toLower

/-- The row predicate denoted by a `SearchFilter`: `hsCodeOnly` tests the
HS code alone; `orSearch` tests product name, customer name and HS code with
logical OR (a `NULL` customer name matches no `ILIKE` pattern). -/
def matchesFilter : SearchFilter → ClassificationRecord → Bool
  | SearchFilter.noFilter, _ => true
  | SearchFilter.hsCodeOnly t, r => ilike r.hs_code t
  | SearchFilter.orSearch t, r =>
      ilike r.product_name t ||
      (match r.customer_name with
       | some cn => ilike cn t
       | none => false) ||
      ilike r.hs_code t

/-- The `(confidence, is_dual_use, chapter)` projection that `getStatistics`
selects (line 211). -/
structure StatRow where
  confidence : Int
  is_dual_use : Bool
  chapter : String
deriving Repr, DecidableEq

/-- JavaScript `Math.round`: round half towards positive infinity, i.e. the
floor of `x + 1/2`. -/
def roundJS (q : ℚ) : Int :=
  ⌊q + 1 / 2⌋

/-- The characters before the first occurrence of the separator, i.e.
JavaScript `s.split(sep)[0]` (the whole string when the separator is
absent). -/
def takeBeforeSep (sep : List Char) : List Char → List Char
  | [] => []
  | c :: cs => if sep.isPrefixOf (c :: cs) then [] else c :: takeBeforeSep sep cs

/-- The chapter bucket of `getStatistics` (line 226):
`s.chapter.split(' - ')[0]`. -/
def chapterBucket (chapter : String) : String :=
  ⟨takeBeforeSep " - ".toList chapter.toList⟩

/-- One step of the `reduce` that builds `chapterCounts` (lines 225–229): an
insertion-ordered association list, incrementing the existing entry or
appending a fresh one with count 1. -/
def bump : List (String × Nat) → String → List (String × Nat)
  | [], key => [(key, 1)]
  | (k, n) :: rest, key =>
    if k == key then (k, n + 1) :: rest else (k, n) :: bump rest key

/-- Stable insertion for a descending-by-count sort, modelling the stable
JavaScript `sort((a, b) => b.count - a.count)` (line 233): an element moves
ahead only of entries with strictly smaller counts, so ties keep their
original order. -/
def insertDesc (x : String × Nat) : List (String × Nat) → List (String × Nat)
  | [] => [x]
  | y :: ys => if y.2 < x.2 then x :: y :: ys else y :: insertDesc x ys

/-- Stable sort of the chapter-count entries by descending count. -/
def sortByCountDesc (l : List (String × Nat)) : List (String × Nat) :=
  l.foldl (fun acc x => insertDesc x acc) []

/-- The aggregate returned by `getStatistics` (lines 202–242). -/
structure Statistics where
  totalClassifications : Nat
  dualUseCount : Nat
  averageConfidence : Int
  topChapters : List (String × Nat)
deriving Repr, DecidableEq

/-- Client-side aggregation of `getStatistics` (lines 218–241) over the
projected rows: total count, dual-use count, `Math.round` of the mean
confidence guarded by `stats.length > 0` (0 on an empty set), and the top
five chapter buckets by frequency. -/
def getStatistics (stats : List StatRow) : Statistics :=
  let totalClassifications := stats.length
  let dualUseCount := (stats.filter (fun s => s.is_dual_use)).length
  let averageConfidence : Int :=
    if stats.length > 0 then
      roundJS (((stats.foldl (fun sum s => sum + s.confidence) 0 : Int) : ℚ) /
        (stats.length : ℚ))
    else 0
  let chapterCounts :=
    stats.foldl (fun acc s => bump acc (chapterBucket s.chapter)) []
  let topChapters := (sortByCountDesc chapterCounts).take 5
  { totalClassifications, dualUseCount, averageConfidence, topChapters }

/-- Model of `DatabaseService.saveClassification` (lines 78–93): the insert closure is
passed to `retryOperation` with the default `retries = 2`, `delay = 1000`.
`op k` is the outcome of the closure's `k`-th invocation (a resolved row, or a
thrown error message — either the wrapped `'Failed to save classification: …'`
or a raw transport rejection). -/
def saveClassification (op : Nat → Outcome ClassificationRecord) :
    Except String ClassificationRecord × List ℚ :=
  retryOperation op 0 2 1000

/-- Model of `DatabaseService.getClassifications` (lines 95–150): the whole query
closure — filter construction, execution, and wrapping of a store error into
`'Failed to fetch classifications: …'` — is passed to `retryOperation` with
the default parameters.  `op k` is the outcome of the closure's `k`-th
invocation, yielding the page and the pre-pagination count. -/
def getClassifications (op : Nat → Outcome (List ClassificationRecord × Nat)) :
    Except String (List ClassificationRecord × Nat) × List ℚ :=
  retryOperation op 0 2 1000

/-- Model of `DatabaseService.findSimilarProducts` (lines 245–260): a single
un-retried query; a store error is logged and converted to `[]`.  The delay
list records retry sleeps, as in `retryOperation`. -/
def findSimilarProducts (op : Nat → Outcome (List ClassificationRecord)) :
    Except String (List ClassificationRecord) × List ℚ :=
  match op 0 with
  | .ok d => (Except.ok d, [])
  | .err _ => (Except.ok [], [])

/-- Model of `DatabaseService.getClassificationsByHSCode` (lines 263–276): a single
un-retried query; a store error is re-thrown as
`'Failed to fetch classifications by HS code: …'`. -/
def getClassificationsByHSCode (op : Nat → Outcome (List ClassificationRecord)) :
    Except String (List ClassificationRecord) × List ℚ :=
  match op 0 with
  | .ok d => (Except.ok d, [])
  | .err m =>
      (Except.error ("Failed to fetch classifications by HS code: " ++ m), [])

/-- Model of `DatabaseService.getClassificationsByCustomer` (lines 279–292): a single
un-retried query; a store error is re-thrown as
`'Failed to fetch classifications by customer: …'`. -/
def getClassificationsByCustomer (op : Nat → Outcome (List ClassificationRecord)) :
    Except String (List ClassificationRecord) × List ℚ :=
  match op 0 with
  | .ok d => (Except.ok d, [])
  | .err m =>
      (Except.error ("Failed to fetch classifications by customer: " ++ m), [])

/-- Model of `DatabaseService.getDualUseClassifications` (lines 295–308): a single
un-retried query; a store error is re-thrown as
`'Failed to fetch dual-use classifications: …'`. -/
def getDualUseClassifications (op : Nat → Outcome (List ClassificationRecord)) :
    Except String (List ClassificationRecord) × List ℚ :=
  match op 0 with
  | .ok d => (Except.ok d, [])
  | .err m =>
      (Except.error ("Failed to fetch dual-use classifications: " ++ m), [])

/-- Model of `DatabaseService.searchProductsByName` (lines 313–327): a single
un-retried query; a store error is logged and converted to `[]`. -/
def searchProductsByName (op : Nat → Outcome (List ClassificationRecord)) :
    Except String (List ClassificationRecord) × List ℚ :=
  match op 0 with
  | .ok d => (Except.ok d, [])
  | .err _ => (Except.ok [], [])

/-- Model of `DatabaseService.searchByHSCodePattern` (lines 330–343): a single
un-retried query; a store error is logged and converted to `[]`. -/
def searchByHSCodePattern (op : Nat → Outcome (List ClassificationRecord)) :
    Except String (List ClassificationRecord) × List ℚ :=
  match op 0 with
  | .ok d => (Except.ok d, [])
  | .err _ => (Except.ok [], [])

/-- Model of `DatabaseService.searchCustomersByPattern` (lines 346–359): a single
un-retried query; a store error is logged and converted to `[]`. -/
def searchCustomersByPattern (op : Nat → Outcome (List ClassificationRecord)) :
    Except String (List ClassificationRecord) × List ℚ :=
  match op 0 with
  | .ok d => (Except.ok d, [])
  | .err _ => (Except.ok [], [])

/-- The `HSCodeClassification` interface of `openai.ts` (the value
`classifyProduct` resolves with, as typed at the `App.tsx` call site). -/
structure HSCodeClassification where
  hsCode : String
  chapter : String
  description : String
  confidence : Int
  isDualUse : Bool
  reasoning : String
deriving Repr, DecidableEq

/-- The `ClassificationResult` UI record of `App.tsx` (lines 11–23);
`timestamp` abstracts the `Date` as the `now` instant. -/
structure ClassificationResult where
  id : String
  productName : String
  hsCode : String
  chapter : String
  description : String
  confidence : Int
  wtoLink : String
  isDualUse : Bool
  timestamp : Nat
  customerName : Option String
  reasoning : Option String
  links : Option WTOLinks
deriving Repr, DecidableEq

/-- The slice of `App` component state that `handleClassification`
touches. -/
structure AppState where
  results : List ClassificationResult
  error : Option String
  isLoading : Bool
deriving Repr, DecidableEq

/-- The `result` object `handleClassification` builds on a successful
classification (`App.tsx` lines 80–95): `id` is `Date.now().toString()`,
`wtoLink` is the `search` member of the generated links, and the full link
set is attached. -/
def mkResult (now : Nat) (productName : String) (customerName : Option String)
    (c : HSCodeClassification) : ClassificationResult :=
  let links := generateWTOLink c.hsCode
  { id := toString now
    productName
    hsCode := c.hsCode
    chapter := c.chapter
    description := c.description
    confidence := c.confidence
    wtoLink := links.search
    isDualUse := c.isDualUse
    timestamp := now
    customerName
    reasoning := some c.reasoning
    links := some links }

/-- State transition of `handleClassification` (`App.tsx` lines 73–123),
with the outcomes of the two awaited calls as parameters.  The save sits in
an inner `try/catch` whose handler only logs (lines 112–115), so its outcome
never reaches the state; the result is prepended afterwards (line 117).  Only
a classification failure reaches the outer handler and sets the error
message. -/
def handleClassification (now : Nat) (productName : String)
    (customerName : Option String)
    (classifyOutcome : Except String HSCodeClassification)
    (saveOutcome : Except String ClassificationRecord)
    (st : AppState) : AppState :=
  let st1 : AppState := { st with isLoading := true, error := none }
  match classifyOutcome with
  | .error msg => { st1 with error := some msg, isLoading := false }
  | .ok c =>
    let result := mkResult now productName customerName c
    let st2 : AppState :=
      match saveOutcome with
      | .ok _ => st1
      | .error _ => st1
    { st2 with results := result :: st2.results, isLoading := false }

/-! ## Helper lemmas -/

/-- When no brace pair exists, the scan for the first `'{'` either finds
nothing or finds a `'{'` with no `'}'` anywhere after it. -/
lemma dropUntilBrace_of_no_braces (cs : List Char) (h : hasJsonBraces cs = false) :
    dropUntilBrace cs = [] ∨
      ∃ rest, dropUntilBrace cs = '{' :: rest ∧ rest.contains '}' = false := by
  induction cs with
  | nil => exact Or.inl rfl
  | cons c cs ih =>
    rw [hasJsonBraces, Bool.or_eq_false_iff, Bool.and_eq_false_iff] at h
    obtain ⟨hab, hrec⟩ := h
    by_cases hc : c == '{'
    · have hcc : c = '{' := by simpa using hc
      have hcont : cs.contains '}' = false := by
        rcases hab with hab | hab
        · rw [hc] at hab; cases hab
        · exact hab
      refine Or.inr ⟨cs, ?_, hcont⟩
      subst hcc
      simp [dropUntilBrace]
    · rw [dropUntilBrace, if_neg (by simpa using hc)]
      exact ih hrec

/-- When the tail after the first `'{'` holds no `'}'`, the greedy search for
the last closing brace fails. -/
lemma takeToLastClose_of_no_close (cs : List Char) (h : cs.contains '}' = false) :
    takeToLastClose cs = none := by
  have hmem : ∀ x ∈ cs, ¬(x = '}') := by
    intro x hx he
    subst he
    simp only [List.contains, List.elem_eq_mem, decide_eq_false_iff_not] at h
    exact h hx
  have hdrop : cs.reverse.dropWhile (fun c => !(c == '}')) = [] := by
    rw [List.dropWhile_eq_nil_iff]
    intro x hx
    have := hmem x (List.mem_reverse.mp hx)
    simpa using this
  rw [takeToLastClose, hdrop]
  simp

/-- When the response text holds no brace-delimited substring, the regex scan
has no match. -/
lemma jsonMatch_of_no_braces (s : String) (h : hasJsonBraces s.toList = false) :
    jsonMatch s = none := by
  rcases dropUntilBrace_of_no_braces s.toList h with h0 | ⟨rest, he, hc⟩
  · simp [jsonMatch, show dropUntilBrace s.data = [] from h0]
  · simp [jsonMatch, show dropUntilBrace s.data = '{' :: rest from he,
      takeToLastClose_of_no_close rest hc]

/-! ## Claims -/

/-- C1: `generateWTOLink` is a pure function of the HS-code string; on
`"8471.30.01"` its chapter-lookup URL references chapter `"84"` as claimed,
but its code-search URL is built from `hsCode.substring(0, 6) = "8471.3"`
(five digits and the dot), not from the 6-digit international root
`"847130"`: the claimed search URL is refuted at this input. -/
theorem C1_generateWTOLink_at_8471_30_01 :
    (generateWTOLink "8471.30.01").chapter =
      "https://www.foreign-trade.com/reference/hscode.cfm?code=84" ∧
    (generateWTOLink "8471.30.01").search =
      "https://www.tariffnumber.com/2022/8471.3" ∧
    (generateWTOLink "8471.30.01").search ≠
      "https://www.tariffnumber.com/2022/847130" ∧
    strIncludes (generateWTOLink "8471.30.01").search "847130" = false := by
  refine ⟨rfl, rfl, by decide, by decide⟩

/-- C2 (counterexample): `findSimilarProducts` is not wrapped in the retry
policy and does not surface failures: on a store failure whose message even
matches the transient retry signature, it performs no retry (empty delay
list) and silently resolves with the empty list instead of throwing;
`getClassificationsByHSCode` does throw a descriptive error, but likewise
performs zero retries on the transient signature. -/
theorem C2_convenience_query_counterexample :
    findSimilarProducts (fun _ => Outcome.err "TypeError: Failed to fetch") =
      (Except.ok [], []) ∧
    isTransient "TypeError: Failed to fetch" = true ∧
    getClassificationsByHSCode (fun _ => Outcome.err "TypeError: Failed to fetch") =
      (Except.error
        "Failed to fetch classifications by HS code: TypeError: Failed to fetch",
       []) := by
  refine ⟨rfl, by decide, rfl⟩

/-- C2 (amended): none of the convenience queries is wrapped in the retry
policy — each issues exactly one attempt and sleeps no retry delay.  On a
failure, the exact-HS-code, exact-customer and dual-use-only queries throw a
descriptive error naming the failed operation, while find-similar-products
and the name/HS-code/customer pattern searches silently resolve with the
empty list. -/
theorem C2_convenience_query_semantics
    (op : Nat → Outcome (List ClassificationRecord)) (m : String)
    (h : op 0 = Outcome.err m) :
    findSimilarProducts op = (Except.ok [], []) ∧
    searchProductsByName op = (Except.ok [], []) ∧
    searchByHSCodePattern op = (Except.ok [], []) ∧
    searchCustomersByPattern op = (Except.ok [], []) ∧
    getClassificationsByHSCode op =
      (Except.error ("Failed to fetch classifications by HS code: " ++ m), []) ∧
    getClassificationsByCustomer op =
      (Except.error ("Failed to fetch classifications by customer: " ++ m), []) ∧
    getDualUseClassifications op =
      (Except.error ("Failed to fetch dual-use classifications: " ++ m), []) := by
  refine ⟨?_, ?_, ?_, ?_, ?_, ?_, ?_⟩ <;>
    simp [findSimilarProducts, searchProductsByName, searchByHSCodePattern,
      searchCustomersByPattern, getClassificationsByHSCode,
      getClassificationsByCustomer, getDualUseClassifications, h]

/-- Witness for C2 (amended) at a concrete failing operation. -/
theorem C2_convenience_query_semantics_witness :
    findSimilarProducts (fun _ => Outcome.err "boom") = (Except.ok [], []) ∧
    getDualUseClassifications (fun _ => Outcome.err "boom") =
      (Except.error ("Failed to fetch dual-use classifications: " ++ "boom"), []) := by
  have h := C2_convenience_query_semantics (fun _ => Outcome.err "boom") "boom" rfl
  exact ⟨h.1, h.2.2.2.2.2.2⟩

/-- C3: whenever the regex scan of the completion text yields a substring
that `JSON.parse` turns into an object whose `hsCode`, `chapter` and
`description` are all truthy, extraction returns exactly the parsed object:
HS code, chapter and description equal the parsed values and `confidence` is
the parsed integer unchanged — nothing is clamped, rescaled or validated. -/
theorem C3_extraction_returns_parsed_values
    (parse : String → Option ParsedClassification) (response sub : String)
    (p : ParsedClassification)
    (hm : jsonMatch response = some sub)
    (hp : parse sub = some p)
    (h1 : falsyStr p.hsCode = false) (h2 : falsyStr p.chapter = false)
    (h3 : falsyStr p.description = false) :
    extractClassification parse response = Except.ok p := by
  simp [extractClassification, hm, hp, h1, h2, h3]

/-- Witness for C3: a concrete completion text around a brace-delimited
payload, with a parse oracle sending that payload to an object whose
`confidence` is 150 — returned unchanged, showing the absence of clamping. -/
theorem C3_extraction_returns_parsed_values_witness :
    extractClassification
      (fun s => if s == "\x7bhsCode: 8471\x7d"
        then some ⟨some "8471.30.01", some "84 - Machines", some "Laptops",
          some 150, some false, some "reasoning"⟩
        else none)
      "ok \x7bhsCode: 8471\x7d end" =
      Except.ok ⟨some "8471.30.01", some "84 - Machines", some "Laptops",
        some 150, some false, some "reasoning"⟩ :=
  C3_extraction_returns_parsed_values _ _ "\x7bhsCode: 8471\x7d" _
    (by decide) (by decide) (by decide) (by decide) (by decide)

/-- C4: the retry wrapper returns the success value after exactly two retries
with delays `base` and `base * 1.5` when the operation fails twice with a
transient-signature message and then succeeds; it fails immediately with zero
retries on a non-transient message; and once the 2 additional attempts are
consumed, the last error is surfaced. -/
theorem C4_retryOperation_semantics {α : Type}
    (op opBad opEx : Nat → Outcome α) (v : α)
    (m0 m1 mBad e0 e1 e2 : String) (base : ℚ)
    (h0 : op 0 = Outcome.err m0) (t0 : isTransient m0 = true)
    (h1 : op 1 = Outcome.err m1) (t1 : isTransient m1 = true)
    (h2 : op 2 = Outcome.ok v)
    (hb : opBad 0 = Outcome.err mBad) (tb : isTransient mBad = false)
    (x0 : opEx 0 = Outcome.err e0) (s0 : isTransient e0 = true)
    (x1 : opEx 1 = Outcome.err e1) (s1 : isTransient e1 = true)
    (x2 : opEx 2 = Outcome.err e2) :
    retryOperation op 0 2 base = (Except.ok v, [base, base * (3 / 2)]) ∧
    retryOperation opBad 0 2 base = (Except.error mBad, []) ∧
    retryOperation opEx 0 2 base = (Except.error e2, [base, base * (3 / 2)]) := by
  refine ⟨?_, ?_, ?_⟩
  · rw [retryOperation, h0]
    simp only [t0, Nat.zero_lt_succ, and_self, if_true]
    rw [retryOperation]
    simp only [h1, t1, Nat.zero_lt_succ, and_self, if_true]
    rw [retryOperation]
    simp [h2]
  · rw [retryOperation, hb]
    simp [tb]
  · rw [retryOperation, x0]
    simp only [s0, Nat.zero_lt_succ, and_self, if_true]
    rw [retryOperation]
    simp only [x1, s1, Nat.zero_lt_succ, and_self, if_true]
    rw [retryOperation]
    simp [x2]

/-- Witness for C4 at concrete operations and `base = 1000`: two transient
failures then success yields the value with delays `[1000, 1500]`; a
non-transient failure yields the error with no delay; three transient
failures surface the last message after the same two delays. -/
theorem C4_retryOperation_semantics_witness :
    retryOperation
        (fun k => if k < 2 then Outcome.err "Failed to fetch" else Outcome.ok 7)
        0 2 1000 = (Except.ok 7, [1000, 1500]) ∧
    retryOperation (fun _ => (Outcome.err "permission denied" : Outcome Nat))
        0 2 (1000 : ℚ) = (Except.error "permission denied", ([] : List ℚ)) ∧
    retryOperation
        (fun k => (Outcome.err (if k = 0 then "Failed to fetch A"
          else if k = 1 then "Failed to fetch B" else "Failed to fetch C") :
            Outcome Nat))
        0 2 1000 = (Except.error "Failed to fetch C", [1000, 1500]) := by
  have h := C4_retryOperation_semantics
    (fun k => if k < 2 then Outcome.err "Failed to fetch"
      else Outcome.ok (7 : Nat))
    (fun _ => (Outcome.err "permission denied" : Outcome Nat))
    (fun k => (Outcome.err (if k = 0 then "Failed to fetch A"
      else if k = 1 then "Failed to fetch B" else "Failed to fetch C") :
        Outcome Nat))
    7 "Failed to fetch" "Failed to fetch" "permission denied"
    "Failed to fetch A" "Failed to fetch B" "Failed to fetch C" 1000
    rfl (by decide) rfl (by decide) rfl rfl (by decide)
    rfl (by decide) rfl (by decide) rfl
  norm_num at h
  exact h

/-- C5: a completion text with no brace-delimited substring (no `'{'`
followed by a later `'}'`) makes extraction fail with the
`MalformedResponse` error — the distinct `'Invalid JSON response from
OpenAI'` failure point, not the transport-failure wrapper. -/
theorem C5_no_braces_malformed_response
    (parse : String → Option ParsedClassification) (response : String)
    (h : hasJsonBraces response.toList = false) :
    extractClassification parse response =
      Except.error ClassifyError.malformedResponse := by
  simp [extractClassification, jsonMatch_of_no_braces response h]

/-- Witness for C5 at a concrete brace-free completion text. -/
theorem C5_no_braces_malformed_response_witness :
    extractClassification (fun _ => none) "Sorry, I cannot classify this." =
      Except.error ClassifyError.malformedResponse :=
  C5_no_braces_malformed_response _ _ (by decide)

/-- C6: when the parsed object has a falsy (absent or empty) `hsCode`,
`chapter` or `description`, extraction fails with the
`IncompleteClassification` error and returns no record. -/
theorem C6_incomplete_classification
    (parse : String → Option ParsedClassification) (response sub : String)
    (p : ParsedClassification)
    (hm : jsonMatch response = some sub)
    (hp : parse sub = some p)
    (hfal : falsyStr p.hsCode = true ∨ falsyStr p.chapter = true ∨
      falsyStr p.description = true) :
    extractClassification parse response =
      Except.error ClassifyError.incompleteClassification := by
  have hcond : (falsyStr p.hsCode || falsyStr p.chapter ||
      falsyStr p.description) = true := by
    rcases hfal with h | h | h <;> simp [h]
  simp [extractClassification, hm, hp, hcond]

/-- Witness for C6: a parse oracle yielding an object whose `hsCode` is the
empty string and whose `description` is absent. -/
theorem C6_incomplete_classification_witness :
    extractClassification
      (fun s => if s == "\x7bpartial\x7d"
        then some ⟨some "", some "84 - Machines", none, some 90, some false,
          some "reasoning"⟩
        else none)
      "text \x7bpartial\x7d text" =
      Except.error ClassifyError.incompleteClassification :=
  C6_incomplete_classification _ _ "\x7bpartial\x7d"
    ⟨some "", some "84 - Machines", none, some 90, some false,
      some "reasoning"⟩
    (by decide) (by decide) (Or.inl (by decide))

/-- C7: for a non-empty search term, when the trimmed term matches the loose
HS-code shape the query carries the HS-code-only filter — never the combined
OR filter — and its row predicate tests the HS-code substring alone;
otherwise the query carries the combined OR filter whose row predicate tests
product name, customer name and HS code. -/
theorem C7_search_term_dispatch (t : String) (hne : t ≠ "") :
    (isHSCodeShape (jsTrim t) = true →
      searchDispatch (some t) = SearchFilter.hsCodeOnly (jsTrim t) ∧
      (∀ s, searchDispatch (some t) ≠ SearchFilter.orSearch s) ∧
      (∀ r, matchesFilter (searchDispatch (some t)) r =
        ilike r.hs_code (jsTrim t))) ∧
    (isHSCodeShape (jsTrim t) = false →
      searchDispatch (some t) = SearchFilter.orSearch (jsTrim t) ∧
      (∀ r, matchesFilter (searchDispatch (some t)) r =
        (ilike r.product_name (jsTrim t) ||
         (match r.customer_name with
          | some cn => ilike cn (jsTrim t)
          | none => false) ||
         ilike r.hs_code (jsTrim t)))) := by
  have hne' : (t == "") = false := by
    simpa using hne
  constructor
  · intro hshape
    refine ⟨?_, ?_, ?_⟩
    · simp [searchDispatch, hne', hshape]
    · intro s
      simp [searchDispatch, hne', hshape]
    · intro r
      simp [searchDispatch, hne', hshape, matchesFilter]
  · intro hshape
    constructor
    · simp [searchDispatch, hne', hshape]
    · intro r
      simp [searchDispatch, hne', hshape, matchesFilter]

/-- Witness for C7 at the spec's concrete terms: `"8471.30"` routes to
HS-code-only filtering and `"router"` to the combined OR search. -/
theorem C7_search_term_dispatch_witness :
    searchDispatch (some "8471.30") = SearchFilter.hsCodeOnly "8471.30" ∧
    searchDispatch (some "router") = SearchFilter.orSearch "router" := by
  have h1 := (C7_search_term_dispatch "8471.30" (by decide)).1 (by decide)
  have h2 := (C7_search_term_dispatch "router" (by decide)).2 (by decide)
  exact ⟨h1.1.trans (by decide), h2.1.trans (by decide)⟩

/-- C8: statistics over the projected record set count the records, count the
dual-use records, round the mean confidence, and rank chapter buckets — the
token before the first `" - "` separator — by frequency, keeping five; at the
spec's three-record instance this yields total 3, dual-use count 1, average
confidence 90, and chapter `"84"` first with count 2. -/
theorem C8_statistics_aggregation :
    getStatistics [⟨80, false, "84 - Machines"⟩, ⟨90, true, "84 - Machines"⟩,
        ⟨100, false, "85 - Electrical"⟩] =
      { totalClassifications := 3, dualUseCount := 1, averageConfidence := 90,
        topChapters := [("84", 2), ("85", 1)] } ∧
    (∀ rows, (getStatistics rows).totalClassifications = rows.length) ∧
    (∀ rows, (getStatistics rows).dualUseCount =
      (rows.filter (fun s => s.is_dual_use)).length) ∧
    (∀ rows, (getStatistics rows).topChapters.length ≤ 5) ∧
    chapterBucket "84 - Machines" = "84" := by
  refine ⟨?_, fun rows => rfl, fun rows => rfl, fun rows => ?_, by decide⟩
  · simp only [getStatistics, Statistics.mk.injEq]
    refine ⟨by decide, by decide, ?_, by decide⟩
    rw [if_pos (by decide),
      show (List.foldl (fun sum s => sum + s.confidence) 0
        [(⟨80, false, "84 - Machines"⟩ : StatRow), ⟨90, true, "84 - Machines"⟩,
          ⟨100, false, "85 - Electrical"⟩] : Int) = 270 from by decide,
      show ([(⟨80, false, "84 - Machines"⟩ : StatRow), ⟨90, true, "84 - Machines"⟩,
          ⟨100, false, "85 - Electrical"⟩].length) = 3 from rfl,
      roundJS]
    rw [Int.floor_eq_iff]
    norm_num
  · simp only [getStatistics]
    exact List.length_take_le 5 _

/-- C9: when classification succeeds and the persistence save fails, the
already-obtained result is still prepended to the displayed result list, no
error message is set, and the resulting list is identical to the one a
successful save would have produced. -/
theorem C9_save_failure_keeps_result (now : Nat) (productName : String)
    (customerName : Option String) (c : HSCodeClassification) (e : String)
    (st : AppState) :
    handleClassification now productName customerName (Except.ok c)
        (Except.error e) st =
      { st with
        isLoading := false
        error := none
        results := mkResult now productName customerName c :: st.results } ∧
    (∀ saved,
      (handleClassification now productName customerName (Except.ok c)
          (Except.error e) st).results =
        (handleClassification now productName customerName (Except.ok c)
            (Except.ok saved) st).results) := by
  exact ⟨rfl, fun saved => rfl⟩

/-- C10: statistics are total on an empty store: zero totals, an empty
top-chapter list, and an average confidence of 0 from the explicit
division-by-zero guard. -/
theorem C10_statistics_empty_store :
    getStatistics [] =
      { totalClassifications := 0, dualUseCount := 0, averageConfidence := 0,
        topChapters := [] } := by
  decide

end HSClass
